import Mathlib

/-!
Shallow embedding of
`src/libs/windows/media_kit_libs_windows_video/windows/media_kit_libs_windows_video_plugin_c_api.cpp`.

The whole source file is one C function:

```
void MediaKitLibsWindowsVideoPluginCApiRegisterWithRegistrar(FlutterDesktopPluginRegistrarRef registrar) \x7b
  MediaKit::GetInstance().FindPackages();
  std::cout << "package:media_kit_libs_windows_video registered." << std::endl;
\x7d
```

We embed it as a function from an environment (the behavior of the external
`MediaKit::FindPackages` call, which may return normally or throw a C++
exception that this layer does not catch) and the registrar handle to a pair
of (result, list of observable effects in order).  Effects are: the call to
`MediaKit::GetInstance()`, the call to `FindPackages()`, and writes to
standard output.  `std::cout << s << std::endl` writes the line `s`
terminated by a newline; we record it as a single `stdoutWrite` effect
carrying the full terminated line.  If `FindPackages` throws, control leaves
the function before the output statement runs, and the exception propagates
unchanged (there is no try/catch in the source).
-/

/-- The host registrar handle (`FlutterDesktopPluginRegistrarRef`).  It is an
abstract pointer in the source; we model it as a wrapped number. -/
structure FlutterDesktopPluginRegistrarRef where
  handle : Nat
deriving DecidableEq, Repr

/-- A C++ exception value that the external `FindPackages` routine may throw. -/
inductive CppException where
  | make : String → CppException
deriving DecidableEq, Repr

/-- Observable effects of the registration entry point, in program order. -/
inductive Effect where
  | getInstanceCall : Effect
  | findPackagesCall : Effect
  | stdoutWrite : String → Effect
deriving DecidableEq, Repr

/-- The behavior of the external `MediaKit::FindPackages` call in this run:
either it returns normally or it throws some C++ exception.  The source file
neither inspects nor influences this behavior. -/
structure MediaKitEnv where
  findPackagesBehavior : Except CppException Unit

/-- The literal text the source streams to `std::cout` before `std::endl`. -/
def confirmationText : String :=
  "package:media_kit_libs_windows_video registered."

/-- The complete output line: the literal text plus the newline produced by
`std::endl`. -/
def confirmationLine : String := confirmationText ++ "\n"

/-- Embedding of the C function
`MediaKitLibsWindowsVideoPluginCApiRegisterWithRegistrar`.  Line by line:
it calls `MediaKit::GetInstance()`, then `.FindPackages()` on the result; if
that returns normally it writes the confirmation line to standard output and
returns `void` (here `Unit`); if it throws, the exception propagates and the
output statement never runs.  The registrar parameter appears nowhere in the
body. -/
def MediaKitLibsWindowsVideoPluginCApiRegisterWithRegistrar
    (env : MediaKitEnv) (registrar : FlutterDesktopPluginRegistrarRef) :
    Except CppException Unit × List Effect :=
  match env.findPackagesBehavior with
  | Except.error e =>
      (Except.error e, [Effect.getInstanceCall, Effect.findPackagesCall])
  | Except.ok _ =>
      (Except.ok (),
        [Effect.getInstanceCall, Effect.findPackagesCall,
         Effect.stdoutWrite confirmationLine])

/-- The sequence of lines written to standard output in an effect trace. -/
def stdoutWrites (effs : List Effect) : List String :=
  effs.filterMap fun ef =>
    match ef with
    | Effect.stdoutWrite s => some s
    | _ => none

/-- Everything written to standard output in an effect trace, concatenated. -/
def stdoutOutput (effs : List Effect) : String :=
  String.join (stdoutWrites effs)

/-- The effects the source file is allowed to produce: the singleton fetch,
the discovery call, and the one confirmation line on standard output. -/
def allowedEffect (ef : Effect) : Bool :=
  ef == Effect.getInstanceCall ||
  ef == Effect.findPackagesCall ||
  ef == Effect.stdoutWrite confirmationLine

/-- An environment in which the external `FindPackages` returns normally. -/
def envOk : MediaKitEnv := { findPackagesBehavior := Except.ok () }

/-- An environment in which the external `FindPackages` throws. -/
def envThrow : MediaKitEnv :=
  { findPackagesBehavior := Except.error (CppException.make "boom") }

/-- A sample registrar handle. -/
def regSample : FlutterDesktopPluginRegistrarRef := { handle := 0 }

/-- A second, distinct sample registrar handle. -/
def regSample2 : FlutterDesktopPluginRegistrarRef := { handle := 1 }

/-- Claim C1: for every registrar handle (and every external behavior in
which `FindPackages` returns normally), calling the registration entry point
once yields exactly one invocation of the package-discovery operation and
exactly one standard-output write, matching the literal confirmation line. -/
theorem register_invokes_discovery_once_and_prints_once
    (env : MediaKitEnv) (r : FlutterDesktopPluginRegistrarRef)
    (h : env.findPackagesBehavior = Except.ok ()) :
    (MediaKitLibsWindowsVideoPluginCApiRegisterWithRegistrar env r).2.count
      Effect.findPackagesCall = 1 ∧
    stdoutWrites
      (MediaKitLibsWindowsVideoPluginCApiRegisterWithRegistrar env r).2 =
      [confirmationLine] := by
  unfold MediaKitLibsWindowsVideoPluginCApiRegisterWithRegistrar
  rw [h]
  exact ⟨by decide, rfl⟩

/-- Witness for C1 at a concrete environment and registrar. -/
theorem register_invokes_discovery_once_and_prints_once_witness :
    envOk.findPackagesBehavior = Except.ok () ∧
    ((MediaKitLibsWindowsVideoPluginCApiRegisterWithRegistrar envOk
        regSample).2.count Effect.findPackagesCall = 1 ∧
     stdoutWrites
       (MediaKitLibsWindowsVideoPluginCApiRegisterWithRegistrar envOk
         regSample).2 = [confirmationLine]) :=
  ⟨rfl, register_invokes_discovery_once_and_prints_once envOk regSample rfl⟩

/-- Claim C2: the text written to standard output is exactly the literal
string followed by one newline (the line terminator from `std::endl`), and
nothing else is written. -/
theorem register_stdout_is_exact_confirmation_line
    (env : MediaKitEnv) (r : FlutterDesktopPluginRegistrarRef)
    (h : env.findPackagesBehavior = Except.ok ()) :
    stdoutWrites
      (MediaKitLibsWindowsVideoPluginCApiRegisterWithRegistrar env r).2 =
      ["package:media_kit_libs_windows_video registered." ++ "\n"] ∧
    stdoutOutput
      (MediaKitLibsWindowsVideoPluginCApiRegisterWithRegistrar env r).2 =
      "package:media_kit_libs_windows_video registered.\n" := by
  unfold MediaKitLibsWindowsVideoPluginCApiRegisterWithRegistrar
  rw [h]
  constructor
  · rfl
  · decide

/-- Witness for C2 at a concrete environment and registrar. -/
theorem register_stdout_is_exact_confirmation_line_witness :
    envOk.findPackagesBehavior = Except.ok () ∧
    (stdoutWrites
       (MediaKitLibsWindowsVideoPluginCApiRegisterWithRegistrar envOk
         regSample).2 =
       ["package:media_kit_libs_windows_video registered." ++ "\n"] ∧
     stdoutOutput
       (MediaKitLibsWindowsVideoPluginCApiRegisterWithRegistrar envOk
         regSample).2 =
       "package:media_kit_libs_windows_video registered.\n") :=
  ⟨rfl, register_stdout_is_exact_confirmation_line envOk regSample rfl⟩

/-- Claim C3: the observable effects occur in the order singleton fetch,
package discovery, confirmation write; in particular any standard-output
write in the trace is preceded by the package-discovery call. -/
theorem register_effect_order
    (env : MediaKitEnv) (r : FlutterDesktopPluginRegistrarRef)
    (h : env.findPackagesBehavior = Except.ok ()) :
    (MediaKitLibsWindowsVideoPluginCApiRegisterWithRegistrar env r).2 =
      [Effect.getInstanceCall, Effect.findPackagesCall,
       Effect.stdoutWrite confirmationLine] ∧
    ∀ (i : Nat) (s : String),
      (MediaKitLibsWindowsVideoPluginCApiRegisterWithRegistrar env r).2[i]? =
        some (Effect.stdoutWrite s) →
      ∃ j, j < i ∧
        (MediaKitLibsWindowsVideoPluginCApiRegisterWithRegistrar env
          r).2[j]? = some Effect.findPackagesCall := by
  unfold MediaKitLibsWindowsVideoPluginCApiRegisterWithRegistrar
  rw [h]
  refine ⟨rfl, ?_⟩
  intro i s hi
  match i with
  | 0 => simp at hi
  | 1 => simp at hi
  | 2 => exact ⟨1, by omega, rfl⟩
  | n + 3 => simp at hi

/-- Witness for C3 at a concrete environment and registrar. -/
theorem register_effect_order_witness :
    envOk.findPackagesBehavior = Except.ok () ∧
    ((MediaKitLibsWindowsVideoPluginCApiRegisterWithRegistrar envOk
        regSample).2 =
       [Effect.getInstanceCall, Effect.findPackagesCall,
        Effect.stdoutWrite confirmationLine] ∧
     ∀ (i : Nat) (s : String),
       (MediaKitLibsWindowsVideoPluginCApiRegisterWithRegistrar envOk
         regSample).2[i]? = some (Effect.stdoutWrite s) →
       ∃ j, j < i ∧
         (MediaKitLibsWindowsVideoPluginCApiRegisterWithRegistrar envOk
           regSample).2[j]? = some Effect.findPackagesCall) :=
  ⟨rfl, register_effect_order envOk regSample rfl⟩

/-- Claim C4: the entry point takes only the registrar handle as input and
returns nothing: whenever the external discovery call returns normally, the
returned value is the unit value, the embedding of `void`. -/
theorem register_returns_void
    (env : MediaKitEnv) (r : FlutterDesktopPluginRegistrarRef)
    (h : env.findPackagesBehavior = Except.ok ()) :
    (MediaKitLibsWindowsVideoPluginCApiRegisterWithRegistrar env r).1 =
      Except.ok Unit.unit := by
  unfold MediaKitLibsWindowsVideoPluginCApiRegisterWithRegistrar
  rw [h]

/-- Witness for C4 at a concrete environment and registrar. -/
theorem register_returns_void_witness :
    envOk.findPackagesBehavior = Except.ok () ∧
    (MediaKitLibsWindowsVideoPluginCApiRegisterWithRegistrar envOk
      regSample).1 = Except.ok Unit.unit :=
  ⟨rfl, register_returns_void envOk regSample rfl⟩

/-- Claim C5: the entry point surfaces no errors of its own: its result is
exactly the result of the external discovery call.  It returns normally
whenever the external call does, and an exception thrown by the external
call propagates past this layer unchanged, neither caught nor transformed. -/
theorem register_error_policy
    (env : MediaKitEnv) (r : FlutterDesktopPluginRegistrarRef) :
    (MediaKitLibsWindowsVideoPluginCApiRegisterWithRegistrar env r).1 =
      env.findPackagesBehavior := by
  unfold MediaKitLibsWindowsVideoPluginCApiRegisterWithRegistrar
  cases h : env.findPackagesBehavior with
  | error e => rfl
  | ok u => rfl

/-- Claim C6: the side effects are limited to the singleton fetch, the
external discovery call, and the one confirmation line on standard output;
no other effect appears, and no state of this fragment or of the registrar
handle is read or modified (changing the registrar changes nothing). -/
theorem register_side_effects_frame
    (env : MediaKitEnv) (r r' : FlutterDesktopPluginRegistrarRef) :
    (MediaKitLibsWindowsVideoPluginCApiRegisterWithRegistrar env
      r).2.all allowedEffect = true ∧
    MediaKitLibsWindowsVideoPluginCApiRegisterWithRegistrar env r =
      MediaKitLibsWindowsVideoPluginCApiRegisterWithRegistrar env r' := by
  refine ⟨?_, rfl⟩
  unfold MediaKitLibsWindowsVideoPluginCApiRegisterWithRegistrar
  cases h : env.findPackagesBehavior with
  | error e => rfl
  | ok u => rfl

/-- Claim C7: the registrar parameter is never used: any two registrar
handles produce identical results and identical effect traces. -/
theorem register_independent_of_registrar
    (env : MediaKitEnv) (r₁ r₂ : FlutterDesktopPluginRegistrarRef) :
    MediaKitLibsWindowsVideoPluginCApiRegisterWithRegistrar env r₁ =
      MediaKitLibsWindowsVideoPluginCApiRegisterWithRegistrar env r₂ := rfl

/-- Claim C8: the entry point is deterministic at this layer: any two runs
in which the external discovery call returns normally, whatever the
registrar inputs, produce equal results and equal effect sequences, with the
same single output line and the same single discovery invocation. -/
theorem register_deterministic
    (env₁ env₂ : MediaKitEnv) (r₁ r₂ : FlutterDesktopPluginRegistrarRef)
    (h₁ : env₁.findPackagesBehavior = Except.ok ())
    (h₂ : env₂.findPackagesBehavior = Except.ok ()) :
    MediaKitLibsWindowsVideoPluginCApiRegisterWithRegistrar env₁ r₁ =
      MediaKitLibsWindowsVideoPluginCApiRegisterWithRegistrar env₂ r₂ ∧
    stdoutWrites
      (MediaKitLibsWindowsVideoPluginCApiRegisterWithRegistrar env₁ r₁).2 =
      [confirmationLine] ∧
    (MediaKitLibsWindowsVideoPluginCApiRegisterWithRegistrar env₁
      r₁).2.count Effect.findPackagesCall = 1 := by
  unfold MediaKitLibsWindowsVideoPluginCApiRegisterWithRegistrar
  rw [h₁, h₂]
  exact ⟨rfl, rfl, by decide⟩

/-- Witness for C8 at two concrete environments and distinct registrars. -/
theorem register_deterministic_witness :
    envOk.findPackagesBehavior = Except.ok () ∧
    (MediaKitLibsWindowsVideoPluginCApiRegisterWithRegistrar envOk
       regSample =
       MediaKitLibsWindowsVideoPluginCApiRegisterWithRegistrar envOk
         regSample2 ∧
     stdoutWrites
       (MediaKitLibsWindowsVideoPluginCApiRegisterWithRegistrar envOk
         regSample).2 = [confirmationLine] ∧
     (MediaKitLibsWindowsVideoPluginCApiRegisterWithRegistrar envOk
       regSample).2.count Effect.findPackagesCall = 1) :=
  ⟨rfl, register_deterministic envOk envOk regSample regSample2 rfl rfl⟩
